import Mathlib

/-!
Formal model of the pyCityVisitorParking provider adapter runtime.

This file gives a shallow embedding, in Lean, of the parts of the library that
the verified properties talk about: the normalization utilities (`util.py`),
the capability manifest loader (`provider/loader.py`), the provider base
contract (`provider/base.py`) and the relevant request/mapping logic of the
DVS Portal, The Hague and Amsterdam adapters.  Python functions become Lean
functions; module-level mutable state becomes explicit state passing; raised
exceptions become `Except` results; the HTTP transport and the wall clock are
environment parameters.  Error message strings are kept verbatim from the
source.
-/

deriving instance DecidableEq for Except

namespace PyCVP

/-- Model of Python `str.strip()` on its default whitespace set. -/
def pyStrip (s : String) : String :=
  String.mk (((s.toList.dropWhile Char.isWhitespace).reverse.dropWhile Char.isWhitespace).reverse)

/-- Model of Python `str.upper()` on ASCII input. -/
def pyUpper (s : String) : String := String.mk (s.toList.map Char.toUpper)

/-- Exception taxonomy of `exceptions.py` (each constructor is one exception
class, carrying its message), extended with the Python builtin `TypeError` and
`AttributeError`, which dataclass construction and attribute lookup can raise. -/
inductive PyErr where
  | validationError (msg : String)
  | authError (msg : String)
  | networkError (msg : String)
  | providerError (msg : String)
  | rateLimitError (msg : String)
  | serviceUnavailableError (msg : String)
  | notFoundError (msg : String)
  | timeoutError (msg : String)
  | configError (msg : String)
  | typeError (msg : String)
  | attributeError (msg : String)
  deriving Repr, DecidableEq

/-- Value of `default_error_code` for each exception class in `exceptions.py`;
the Python builtins `TypeError` and `AttributeError` carry no library error
code and are mapped to the empty string. -/
def PyErr.errorCode : PyErr → String
  | .validationError _ => "validation_error"
  | .authError _ => "auth_error"
  | .networkError _ => "network_error"
  | .providerError _ => "provider_error"
  | .rateLimitError _ => "rate_limit"
  | .serviceUnavailableError _ => "service_unavailable"
  | .notFoundError _ => "not_found"
  | .timeoutError _ => "timeout"
  | .configError _ => "config_error"
  | .typeError _ => ""
  | .attributeError _ => ""

/-- Characters kept by the license-plate regex `[^A-Z0-9]` substitution in
`util.normalize_license_plate` (applied after `.upper()`). -/
def keepPlateChar (c : Char) : Bool := c.isUpper || c.isDigit

/-- Model of `util.normalize_license_plate`: uppercase the plate, drop every
character outside `A`–`Z`/`0`–`9`, and fail with `ValidationError` when the
result is empty.  The model covers ASCII input; the non-string branch of the
Python function is outside the embedded input type. -/
def normalize_license_plate (plate : String) : Except PyErr String :=
  let normalized := String.mk ((pyUpper plate).toList.filter keepPlateChar)
  if normalized = "" then
    .error (.validationError "License plate is empty after normalization.")
  else
    .ok normalized

/-!
Timestamp model.

A Python `datetime` value is represented by the pair of its naive calendar
reading, measured in microseconds on the proleptic linear scale whose zero is
`1970-01-01T00:00:00` of the same reading, and its `utcoffset()` in seconds
(`none` for a naive value).  CPython compares and converts aware datetimes by
the instant `naiveMicro - offsetSec * 10^6`, and `astimezone`/`replace` act on
these two components exactly as modelled below.  A timestamp string in the
subset accepted by `datetime.fromisoformat` is represented by the components
the parser extracts from it: the same naive reading, the explicit offset
(`none` when the string is naive), and whether the string ends in the literal
`Z` instead of a numeric offset (in which case the offset is `+00:00`).
Strings outside this subset only reach the `ValueError` branches of the
source, which the embedded input type leaves out.
-/

/-- A Python `datetime` value: naive reading in microseconds plus optional
UTC offset in seconds. -/
structure PyDatetime where
  naiveMicro : Int
  offsetSec : Option Int
  deriving Repr, DecidableEq

/-- An ISO-8601 timestamp string, represented by its parsed components. -/
structure TsStr where
  naiveMicro : Int
  offsetSec : Option Int
  zSuffix : Bool
  deriving Repr, DecidableEq

/-- Model of `datetime.fromisoformat` on the represented string subset. -/
def fromisoformat (s : TsStr) : PyDatetime :=
  { naiveMicro := s.naiveMicro, offsetSec := s.offsetSec }

/-- Model of `util.parse_timestamp`: a trailing `Z` is first replaced by
`+00:00` (so it denotes offset zero), the string is parsed, a missing offset
is a `ValidationError`, and the result is converted to UTC with `astimezone`. -/
def parse_timestamp (s : TsStr) : Except PyErr PyDatetime :=
  match s.offsetSec with
  | none => .error (.validationError "Timestamp must include timezone information.")
  | some o => .ok { naiveMicro := s.naiveMicro - o * 1000000, offsetSec := some 0 }

/-- Model of `util.format_utc_timestamp`: reject naive values, convert to UTC,
zero the microsecond component, and render with a trailing `Z`. -/
def format_utc_timestamp (d : PyDatetime) : Except PyErr TsStr :=
  match d.offsetSec with
  | none => .error (.validationError "Timestamp must include timezone information.")
  | some o =>
    .ok { naiveMicro := (d.naiveMicro - o * 1000000) - (d.naiveMicro - o * 1000000) % 1000000,
          offsetSec := some 0, zSuffix := true }

/-- Model of `util.ensure_utc_timestamp`: format the parse result. -/
def ensure_utc_timestamp (s : TsStr) : Except PyErr TsStr :=
  (parse_timestamp s).bind format_utc_timestamp

/-- C9: for every valid offset-aware timestamp string at second precision, the
round trip through the canonical Z-suffixed UTC form (`format_utc_timestamp`
after `parse_timestamp`) parses back to exactly the value `parse_timestamp`
gives for the original string: the round trip is lossless at second
precision. -/
theorem claim_C9 (s : TsStr) (o : Int) (hoff : s.offsetSec = some o)
    (hsec : s.naiveMicro % 1000000 = 0) :
    (ensure_utc_timestamp s).bind parse_timestamp = parse_timestamp s := by
  simp only [ensure_utc_timestamp, parse_timestamp, format_utc_timestamp, hoff, Except.bind,
    Except.ok.injEq, PyDatetime.mk.injEq]
  exact ⟨by omega, trivial⟩

/-- Witness for C9 at the concrete aware timestamp `1970-01-01T01:00:05+01:00`
(naive reading 3605 seconds, offset 3600 seconds). -/
theorem claim_C9_witness :
    (ensure_utc_timestamp ⟨3605000000, some 3600, false⟩).bind parse_timestamp
      = parse_timestamp ⟨3605000000, some 3600, false⟩ :=
  claim_C9 ⟨3605000000, some 3600, false⟩ 3600 rfl (by decide)

/-!
Europe/Amsterdam zone model.

Both the DVS Portal and the Amsterdam adapter attach `ZoneInfo` for
`Europe/Amsterdam` (with `fold=0`) to naive backend timestamps.  The zone data
itself comes from the external IANA database; it is modelled here for modern
dates by the published EU rule: standard offset UTC+1, daylight saving UTC+2
from 02:00 local time on the last Sunday of March until 03:00 local time on
the last Sunday of October, and with `fold=0` a naive local time in the
skipped or repeated hour resolves to the offset in effect before the
transition.  Civil-date arithmetic uses floor division, which Lean's `Int`
division and remainder provide for positive divisors.
-/

/-- Day count of a proleptic Gregorian civil date relative to 1970-01-01. -/
def daysFromCivil (y m d : Int) : Int :=
  (if m ≤ 2 then y - 1 else y) / 400 * 146097 +
    ((y - (if m ≤ 2 then y - 1 else y) / 400 * 400 - (if m ≤ 2 then 1 else 0)) * 365 +
      (y - (if m ≤ 2 then y - 1 else y) / 400 * 400 - (if m ≤ 2 then 1 else 0)) / 4 -
      (y - (if m ≤ 2 then y - 1 else y) / 400 * 400 - (if m ≤ 2 then 1 else 0)) / 100 +
      ((153 * ((m + 9) % 12) + 2) / 5 + d - 1)) - 719468

/-- Civil date of a day count relative to 1970-01-01 (inverse of
`daysFromCivil`), returned as (year, month, day). -/
def civilFromDays (z0 : Int) : Int × Int × Int :=
  let z := z0 + 719468
  let era := z / 146097
  let doe := z - era * 146097
  let yoe := (doe - doe / 1460 + doe / 36524 - doe / 146096) / 365
  let y := yoe + era * 400
  let doy := doe - (365 * yoe + yoe / 4 - yoe / 100)
  let mp := (5 * doy + 2) / 153
  let d := doy - (153 * mp + 2) / 5 + 1
  let m := mp + (if mp < 10 then 3 else -9)
  (if m ≤ 2 then y + 1 else y, m, d)

/-- Naive local reading of a civil date and time of day, in seconds on the
linear scale used by the timestamp model. -/
def civilNaiveSec (y m d h mi sec : Int) : Int :=
  daysFromCivil y m d * 86400 + h * 3600 + mi * 60 + sec

/-- Naive local reading in microseconds, for timestamp-string witnesses. -/
def civilNaiveMicro (y m d h mi sec : Int) : Int :=
  civilNaiveSec y m d h mi sec * 1000000

/-- Day count of the last Sunday on or before the given day count
(1970-01-01 was a Thursday, so day counts congruent to 3 modulo 7 are
Sundays). -/
def lastSundayOnOrBefore (d : Int) : Int :=
  d - (d + 4) % 7

/-- Year of a naive local reading given in seconds. -/
def yearOfLocalSec (nSec : Int) : Int :=
  (civilFromDays (nSec / 86400)).1

/-- Local reading, in seconds, of the spring-forward moment of a year:
02:00 local time on the last Sunday of March. -/
def springForwardLocalSec (y : Int) : Int :=
  lastSundayOnOrBefore (daysFromCivil y 3 31) * 86400 + 7200

/-- Local reading, in seconds, of the fall-back moment of a year: 03:00 local
(pre-transition) time on the last Sunday of October. -/
def fallBackLocalSec (y : Int) : Int :=
  lastSundayOnOrBefore (daysFromCivil y 10 31) * 86400 + 10800

/-- UTC offset, in seconds, that `ZoneInfo("Europe/Amsterdam")` reports for a
naive local reading with `fold=0`: UTC+2 between the spring-forward moment
plus one hour and the fall-back moment, UTC+1 otherwise; the skipped hour
[02:00, 03:00) of the spring day and the repeated hour [02:00, 03:00) of the
fall day both resolve to the pre-transition offset. -/
def amsOffsetFold0 (nSec : Int) : Int :=
  if nSec < springForwardLocalSec (yearOfLocalSec nSec) + 3600 then 3600
  else if nSec < fallBackLocalSec (yearOfLocalSec nSec) then 7200
  else 3600

/-- In every year the spring-forward moment lies at least two hours before the
fall-back moment (March against October). -/
theorem spring_le_fall (y : Int) : springForwardLocalSec y + 7200 ≤ fallBackLocalSec y := by
  simp only [springForwardLocalSec, fallBackLocalSec, lastSundayOnOrBefore, daysFromCivil]
  norm_num
  omega

/-- Fold-0 resolution of an ambiguous local time (the repeated hour before the
fall-back moment) picks the daylight-saving offset UTC+2, the offset in effect
before the transition. -/
theorem amsOffset_ambiguous (nSec : Int)
    (h1 : fallBackLocalSec (yearOfLocalSec nSec) - 3600 ≤ nSec)
    (h2 : nSec < fallBackLocalSec (yearOfLocalSec nSec)) :
    amsOffsetFold0 nSec = 7200 := by
  have hsf := spring_le_fall (yearOfLocalSec nSec)
  unfold amsOffsetFold0
  rw [if_neg (by omega), if_pos h2]

/-- Model of `dvsportal.api.Provider._parse_provider_timestamp`: a Z-suffixed
string goes through `ensure_utc_timestamp`; otherwise the string is parsed
with `fromisoformat`, a naive result gets `Europe/Amsterdam` attached with
`fold=0`, and the result is rendered with `format_utc_timestamp`.  The
non-string, empty and unparseable branches of the source raise
`ValidationError` and lie outside the embedded string subset. -/
def dvsParseProviderTimestamp (s : TsStr) : Except PyErr TsStr :=
  if s.zSuffix then ensure_utc_timestamp s
  else
    match s.offsetSec with
    | some _ => format_utc_timestamp (fromisoformat s)
    | none =>
      format_utc_timestamp ⟨s.naiveMicro, some (amsOffsetFold0 (s.naiveMicro / 1000000))⟩

/-- Model of `amsterdam.api.Provider._parse_provider_timestamp` on the ISO
string subset: `ensure_utc_timestamp` handles every offset-aware string; for a
naive string the RFC-1123 parse fails (an ISO string is not an RFC-1123
date), `fromisoformat` succeeds, and `Europe/Amsterdam` is attached with the
default `fold=0` before rendering. -/
def amsParseProviderTimestamp (s : TsStr) : Except PyErr TsStr :=
  match ensure_utc_timestamp s with
  | .ok r => .ok r
  | .error _ =>
    format_utc_timestamp ⟨s.naiveMicro, some (amsOffsetFold0 (s.naiveMicro / 1000000))⟩

/-- C8: both adapters whose documented zone is Europe/Amsterdam interpret a
naive response timestamp in that zone: the naive input 2024-01-01T10:00:00
(winter, UTC+1) parses to the canonical output 2024-01-01T09:00:00Z in both
adapters, and for every naive whole-second reading in an ambiguous (repeated)
local hour the DVS Portal parser deterministically yields the earlier of the
two candidate UTC instants, the one given by the pre-transition offset
UTC+2. -/
theorem claim_C8 :
    (dvsParseProviderTimestamp ⟨civilNaiveMicro 2024 1 1 10 0 0, none, false⟩
        = .ok ⟨civilNaiveMicro 2024 1 1 9 0 0, some 0, true⟩
      ∧ amsParseProviderTimestamp ⟨civilNaiveMicro 2024 1 1 10 0 0, none, false⟩
        = .ok ⟨civilNaiveMicro 2024 1 1 9 0 0, some 0, true⟩)
    ∧ ∀ n : Int, n % 1000000 = 0 →
        fallBackLocalSec (yearOfLocalSec (n / 1000000)) - 3600 ≤ n / 1000000 →
        n / 1000000 < fallBackLocalSec (yearOfLocalSec (n / 1000000)) →
        dvsParseProviderTimestamp ⟨n, none, false⟩
            = .ok ⟨n - 7200 * 1000000, some 0, true⟩
          ∧ n - 7200 * 1000000 = min (n - 7200 * 1000000) (n - 3600 * 1000000) := by
  refine ⟨⟨by rfl, by rfl⟩, ?_⟩
  intro n h0 h1 h2
  have hoff : amsOffsetFold0 (n / 1000000) = 7200 := amsOffset_ambiguous _ h1 h2
  constructor
  · have hd : dvsParseProviderTimestamp ⟨n, none, false⟩
        = format_utc_timestamp ⟨n, some (amsOffsetFold0 (n / 1000000))⟩ := rfl
    rw [hd, hoff]
    have h1000 : (n - 7200 * 1000000) % 1000000 = 0 := by omega
    simp only [format_utc_timestamp, h1000]
    norm_num
  · omega

/-- Witness for the ambiguous-hour part of C8 at the naive local reading
2023-10-29T02:30:00, which falls in the repeated hour of the 2023 fall-back
transition in Europe/Amsterdam. -/
theorem claim_C8_witness :
    dvsParseProviderTimestamp ⟨civilNaiveMicro 2023 10 29 2 30 0, none, false⟩
      = .ok ⟨civilNaiveMicro 2023 10 29 2 30 0 - 7200 * 1000000, some 0, true⟩
    ∧ civilNaiveMicro 2023 10 29 2 30 0 - 7200 * 1000000
        = min (civilNaiveMicro 2023 10 29 2 30 0 - 7200 * 1000000)
            (civilNaiveMicro 2023 10 29 2 30 0 - 3600 * 1000000) :=
  claim_C8.2 (civilNaiveMicro 2023 10 29 2 30 0) (by decide) (by decide) (by decide)

/-!
Capability manifest loader (`provider/loader.py`).

The module-level cache variables `_MANIFEST_CACHE` and
`_MANIFEST_CACHE_EXPIRES_AT` become an explicit `LoaderState`; the installed
provider packages and their manifest files become a `LoaderEnv`; the monotonic
clock value becomes the `now` argument.  Manifest documents are embedded as
JSON values.
-/

/-- JSON values, as produced by `json.loads`. -/
inductive JsonValue where
  | null
  | bool (b : Bool)
  | num (n : Int)
  | str (s : String)
  | arr (xs : List JsonValue)
  | obj (kvs : List (String × JsonValue))

/-- Lookup of a key in a JSON object (Python dict access; keys are unique). -/
def jsonLookup (kvs : List (String × JsonValue)) (k : String) : Option JsonValue :=
  match kvs with
  | [] => none
  | (k0, v) :: rest => if k0 = k then some v else jsonLookup rest k

/-- Model of `loader.ProviderManifest` (frozen dataclass, `loader.py` lines
28–33). -/
structure ProviderManifest where
  id : String
  name : String
  favorite_update_fields : List String
  reservation_update_fields : List String
  deriving Repr, DecidableEq

/-- Allowed favorite update fields (`loader._FAVORITE_UPDATE_FIELDS`). -/
def allowedFavoriteUpdateFields : List String := ["license_plate", "name"]

/-- Allowed reservation update fields (`loader._RESERVATION_UPDATE_FIELDS`). -/
def allowedReservationUpdateFields : List String := ["start_time", "end_time", "name"]

/-- Loop body of `loader._normalize_update_fields`: validate each list item in
order (string, non-empty after strip, in the allowed set, no duplicates). -/
def normalizeUpdateFieldsGo (fieldName : String) (allowed : List String)
    (seen : List String) (acc : List String) :
    List JsonValue → Except PyErr (List String)
  | [] => .ok acc.reverse
  | item :: rest =>
    match item with
    | .str s =>
      let text := pyStrip s
      if text = "" then
        .error (.providerError
          ("Provider manifest " ++ fieldName ++ " cannot contain empty values."))
      else if !(allowed.contains text) then
        .error (.providerError
          ("Provider manifest " ++ fieldName ++ " contains unsupported value " ++ text ++ "."))
      else if seen.contains text then
        .error (.providerError
          ("Provider manifest " ++ fieldName ++ " cannot contain duplicates."))
      else normalizeUpdateFieldsGo fieldName allowed (text :: seen) (text :: acc) rest
    | _ =>
      .error (.providerError
        ("Provider manifest " ++ fieldName ++ " must be a list of strings."))

/-- Model of `loader._normalize_update_fields`. -/
def normalize_update_fields (value : JsonValue) (allowed : List String)
    (fieldName : String) : Except PyErr (List String) :=
  match value with
  | .arr items => normalizeUpdateFieldsGo fieldName allowed [] [] items
  | _ => .error (.providerError ("Provider manifest " ++ fieldName ++ " must be a list."))

/-- Model of `loader._build_manifest`: all schema checks of the source in
source order. -/
def buildManifest (data : JsonValue) (folderName : String) :
    Except PyErr ProviderManifest :=
  match data with
  | .obj kvs =>
    match (["id", "name", "capabilities"].filter fun k => (jsonLookup kvs k).isNone) with
    | missingKey :: moreMissing =>
      .error (.providerError
        ("Provider manifest missing keys: "
          ++ String.intercalate ", " (missingKey :: moreMissing) ++ "."))
    | [] =>
      match jsonLookup kvs "id", jsonLookup kvs "name", jsonLookup kvs "capabilities" with
      | some pid, some pname, some caps =>
        match pid with
        | .str idStr =>
          if idStr = "" then
            .error (.providerError "Provider manifest id must be a non-empty string.")
          else if idStr ≠ folderName then
            .error (.providerError "Provider manifest id must match its folder name.")
          else
            match pname with
            | .str nameStr =>
              if nameStr = "" then
                .error (.providerError "Provider manifest name must be a non-empty string.")
              else
                match caps with
                | .obj capKvs =>
                  match jsonLookup capKvs "favorite_update_fields" with
                  | none =>
                    .error (.providerError
                      "Provider manifest capabilities must include favorite_update_fields.")
                  | some favRaw =>
                    match jsonLookup capKvs "reservation_update_fields" with
                    | none =>
                      .error (.providerError
                        "Provider manifest capabilities must include reservation_update_fields.")
                    | some resRaw =>
                      match normalize_update_fields favRaw allowedFavoriteUpdateFields
                          "favorite_update_fields" with
                      | .error e => .error e
                      | .ok favFields =>
                        match normalize_update_fields resRaw allowedReservationUpdateFields
                            "reservation_update_fields" with
                        | .error e => .error e
                        | .ok resFields =>
                          .ok ⟨idStr, nameStr, favFields, resFields⟩
                | _ =>
                  .error (.providerError "Provider manifest capabilities must be an object.")
            | _ =>
              .error (.providerError "Provider manifest name must be a non-empty string.")
        | _ => .error (.providerError "Provider manifest id must be a non-empty string.")
      | _, _, _ => .error (.providerError "Provider manifest missing keys.")
  | _ => .error (.providerError "Provider manifest must be a JSON object.")

/-- Result of reading one provider folder manifest file: the decoded JSON
document, or a `json.JSONDecodeError`. -/
inductive ManifestFile where
  | ok (data : JsonValue)
  | jsonInvalid

/-- Environment of the loader: whether the provider package lookup raises
`ModuleNotFoundError`/`PackageNotFoundError`, and the manifest files found by
`iter_manifest_files`, in iteration order. -/
structure LoaderEnv where
  packageMissing : Bool
  files : List (String × ManifestFile)

/-- Module-level cache state of `loader.py`: `_MANIFEST_CACHE` and
`_MANIFEST_CACHE_EXPIRES_AT` (expiry on the monotonic clock). -/
structure LoaderState where
  cache : Option (List ProviderManifest)
  expiresAt : Option Int
  deriving Repr, DecidableEq

/-- State at module import: both cache variables are `None`. -/
def initialLoaderState : LoaderState := ⟨none, none⟩

/-- Folder-by-folder reload loop of `load_manifests`: decode each manifest
file and build its manifest, stopping at the first failure. -/
def loadAllGo : List (String × ManifestFile) → Except (Option PyErr) (List ProviderManifest)
  | [] => .ok []
  | (folder, file) :: rest =>
    match file with
    | .jsonInvalid => .error (some (.providerError "Provider manifest is not valid JSON."))
    | .ok data =>
      match buildManifest data folder with
      | .error e => .error (some e)
      | .ok m =>
        match loadAllGo rest with
        | .error e => .error e
        | .ok ms => .ok (m :: ms)

/-- Reload of every manifest from the provider packages; `.error none` is the
missing-package failure raised by `iter_manifest_files`, `.error (some e)` a
JSON-decode or validation failure. -/
def loadAllManifests (env : LoaderEnv) : Except (Option PyErr) (List ProviderManifest) :=
  if env.packageMissing then .error none else loadAllGo env.files

/-- Rendering of a reload outcome as the result `load_manifests` raises or
returns. -/
def renderLoadResult :
    Except (Option PyErr) (List ProviderManifest) → Except PyErr (List ProviderManifest)
  | .error none => .error (.providerError "Provider package was not found.")
  | .error (some e) => .error e
  | .ok ms => .ok ms

/-- Negative-TTL guard of `load_manifests` (`cache_ttl is not None and
cache_ttl < 0`). -/
def ttlNegative : Option Int → Bool
  | some t => decide (t < 0)
  | none => false

/-- Cache-hit condition of `load_manifests`: not refreshing, a cache is
populated, and either no TTL was passed or the expiry lies in the future on
the monotonic clock. -/
def cacheHit (st : LoaderState) (refresh : Bool) (cacheTtl : Option Int) (now : Int) : Bool :=
  !refresh && st.cache.isSome &&
    (cacheTtl.isNone ||
      (match st.expiresAt with
       | some e => decide (now < e)
       | none => false))

/-- Default TTL `_DEFAULT_CACHE_TTL_SECONDS` (300 seconds). -/
def defaultCacheTtl : Int := 300

/-- Model of `loader.load_manifests`: serve the cache on a hit; otherwise
clear the cache first when `cache_ttl` is `None`, reload, invalidate the cache
on a missing package, propagate JSON/validation failures, and store the fresh
snapshot only when a TTL is in effect. -/
def load_manifests (env : LoaderEnv) (st : LoaderState) (refresh : Bool)
    (cacheTtl : Option Int) (now : Int) :
    Except PyErr (List ProviderManifest) × LoaderState :=
  if ttlNegative cacheTtl then
    (.error (.providerError "cache_ttl must be non-negative."), st)
  else if cacheHit st refresh cacheTtl now then
    (.ok (st.cache.getD []), st)
  else
    let st1 : LoaderState := if cacheTtl.isNone then ⟨none, none⟩ else st
    match loadAllManifests env with
    | .error none => (.error (.providerError "Provider package was not found."), ⟨none, none⟩)
    | .error (some e) => (.error e, st1)
    | .ok mans =>
      match cacheTtl with
      | none => (.ok mans, st1)
      | some t => (.ok mans, ⟨some mans, some (now + t)⟩)

/-- Field names of the frozen dataclass `models.ProviderInfo` (`models.py`
lines 8–11), the caller-facing provider summary type. -/
def providerInfoFieldNames : List String := ["id", "favorite_update_possible"]

/-- Values passed as dataclass keyword arguments inside `list_providers`:
strings and tuples of strings. -/
inductive PyVal where
  | str (s : String)
  | strList (xs : List String)
  deriving Repr, DecidableEq

/-- Python keyword construction of a dataclass without defaults: the call
raises `TypeError` for the first keyword that is not a declared field;
otherwise every declared field must be supplied; the constructed object is
its field assignment. -/
def dataclassCall (fields : List String) (kwargs : List (String × PyVal)) :
    Except PyErr (List (String × PyVal)) :=
  match kwargs.find? (fun kv => !(fields.contains kv.fst)) with
  | some kv =>
    .error (.typeError
      ("ProviderInfo.__init__() got an unexpected keyword argument " ++ kv.fst))
  | none =>
    match fields.find? (fun f => !(kwargs.any (fun kv => kv.fst == f))) with
    | some f =>
      .error (.typeError ("ProviderInfo.__init__() missing required argument " ++ f))
    | none => .ok kwargs

/-- One `ProviderInfo(...)` construction inside `loader.list_providers`
(`loader.py` lines 190–194): the keywords passed are `id`,
`favorite_update_fields` and `reservation_update_fields`. -/
def mkProviderInfo (m : ProviderManifest) : Except PyErr (List (String × PyVal)) :=
  dataclassCall providerInfoFieldNames
    [("id", .str m.id),
     ("favorite_update_fields", .strList m.favorite_update_fields),
     ("reservation_update_fields", .strList m.reservation_update_fields)]

/-- Model of `loader.list_providers`: load the manifests, then construct one
`ProviderInfo` per manifest. -/
def list_providers (env : LoaderEnv) (st : LoaderState) (refresh : Bool)
    (cacheTtl : Option Int) (now : Int) :
    Except PyErr (List (List (String × PyVal))) × LoaderState :=
  match load_manifests env st refresh cacheTtl now with
  | (.error e, st2) => (.error e, st2)
  | (.ok mans, st2) =>
    match mans.mapM mkProviderInfo with
    | .error e => (.error e, st2)
    | .ok infos => (.ok infos, st2)

/-- Manifest document of the dvsportal provider as the loader validates it. -/
def dvsManifestJson : JsonValue :=
  .obj [("id", .str "dvsportal"), ("name", .str "DVS Portal"),
    ("capabilities", .obj [("favorite_update_fields", .arr []),
      ("reservation_update_fields", .arr [.str "end_time"])])]

/-- Loaded manifest value of `dvsManifestJson`. -/
def dvsManifest : ProviderManifest := ⟨"dvsportal", "DVS Portal", [], ["end_time"]⟩

/-- Environment holding one valid provider manifest. -/
def envGood : LoaderEnv := ⟨false, [("dvsportal", .ok dvsManifestJson)]⟩

/-- Same provider after its manifest file changed its display name. -/
def dvsManifestV2 : ProviderManifest := ⟨"dvsportal", "DVS Portal v2", [], ["end_time"]⟩

/-- Environment holding the changed manifest. -/
def envChanged : LoaderEnv :=
  ⟨false, [("dvsportal", .ok (.obj [("id", .str "dvsportal"), ("name", .str "DVS Portal v2"),
    ("capabilities", .obj [("favorite_update_fields", .arr []),
      ("reservation_update_fields", .arr [.str "end_time"])])]))]⟩

/-- Environment whose manifest file is not valid JSON. -/
def envBad : LoaderEnv := ⟨false, [("dvsportal", .jsonInvalid)]⟩

/-- C1: `list_providers` never returns the claimed per-manifest summaries:
`models.ProviderInfo` declares only the fields `id` and
`favorite_update_possible`, while `loader.list_providers` passes the keywords
`id`, `favorite_update_fields` and `reservation_update_fields`, so with one
valid loaded manifest the construction raises `TypeError` instead of
returning a summary per manifest. -/
theorem claim_C1 :
    list_providers envGood initialLoaderState false (some defaultCacheTtl) 0
      = (.error (.typeError
            "ProviderInfo.__init__() got an unexpected keyword argument favorite_update_fields"),
          ⟨some [dvsManifest], some 300⟩) := by
  decide

/-- Counterexample to C2: a first call with a TTL populates the cache; a
second call with `refresh=false, cache_ttl=None` then serves that cached
snapshot unchanged (and leaves it stored) even though the manifest file has
changed in the meantime, so the call neither reloads nor ignores the cache. -/
theorem claim_C2_counterexample :
    load_manifests envGood initialLoaderState false (some defaultCacheTtl) 0
      = (.ok [dvsManifest], ⟨some [dvsManifest], some 300⟩)
    ∧ load_manifests envChanged ⟨some [dvsManifest], some 300⟩ false none 10
        = (.ok [dvsManifest], ⟨some [dvsManifest], some 300⟩)
    ∧ renderLoadResult (loadAllManifests envChanged) = .ok [dvsManifestV2]
    ∧ dvsManifest ≠ dvsManifestV2 := by
  refine ⟨by decide, by decide, by decide, by decide⟩

/-- C2 as amended: with `refresh=false` and `cache_ttl=None`, when the cache
is empty the call reloads from the provider packages, clears the cache and
never stores the result; but when a previous call populated the cache, the
call serves that cached snapshot unchanged, regardless of its expiry. -/
theorem claim_C2 :
    (∀ env st now, st.cache = none →
      load_manifests env st false none now = (renderLoadResult (loadAllManifests env), ⟨none, none⟩))
    ∧ (∀ env st c now, st.cache = some c →
      load_manifests env st false none now = (.ok c, st)) := by
  constructor
  · intro env st now hcache
    have hhit : cacheHit st false none now = false := by
      simp [cacheHit, hcache]
    simp only [load_manifests, ttlNegative, hhit, Bool.false_eq_true, if_false,
      Option.isNone_none, if_true]
    cases hL : loadAllManifests env with
    | ok ms => simp [hL, renderLoadResult]
    | error e =>
      cases e with
      | none => simp [hL, renderLoadResult]
      | some e0 => simp [hL, renderLoadResult]
  · intro env st c now hcache
    have hhit : cacheHit st false none now = true := by
      simp [cacheHit, hcache]
    simp only [load_manifests, ttlNegative, hhit, if_true, hcache, Option.getD_some,
      Bool.false_eq_true, if_false]

/-- Witness for the amended C2 at concrete states: an empty cache reloads and
stays unstored, and a populated cache is served unchanged. -/
theorem claim_C2_witness :
    load_manifests envGood initialLoaderState false none 0
      = (renderLoadResult (loadAllManifests envGood), ⟨none, none⟩)
    ∧ load_manifests envChanged ⟨some [dvsManifest], some 300⟩ false none 10
        = (.ok [dvsManifest], ⟨some [dvsManifest], some 300⟩) :=
  ⟨claim_C2.1 envGood initialLoaderState 0 rfl,
    claim_C2.2 envChanged ⟨some [dvsManifest], some 300⟩ [dvsManifest] 10 rfl⟩

/-- Counterexample to C3: after a first call populates the cache, a
`refresh=True` reload that fails on malformed manifest JSON propagates the
error but leaves the cache and its expiry intact, and a later call within the
original TTL serves the stale pre-failure snapshot. -/
theorem claim_C3_counterexample :
    load_manifests envGood initialLoaderState false (some defaultCacheTtl) 0
      = (.ok [dvsManifest], ⟨some [dvsManifest], some 300⟩)
    ∧ load_manifests envBad ⟨some [dvsManifest], some 300⟩ true (some defaultCacheTtl) 10
        = (.error (.providerError "Provider manifest is not valid JSON."),
            ⟨some [dvsManifest], some 300⟩)
    ∧ load_manifests envBad ⟨some [dvsManifest], some 300⟩ false (some defaultCacheTtl) 20
        = (.ok [dvsManifest], ⟨some [dvsManifest], some 300⟩) := by
  refine ⟨by decide, by decide, by decide⟩

/-- C3 as amended: only a reload failure caused by a missing provider package
invalidates the cache while propagating the error; a malformed-JSON or
schema-violation failure propagates the error but leaves the pre-failure
cache and expiry intact (so such a snapshot can still be served within its
original TTL). -/
theorem claim_C3 :
    (∀ env st t now, env.packageMissing = true → 0 ≤ t →
      load_manifests env st true (some t) now
        = (.error (.providerError "Provider package was not found."), ⟨none, none⟩))
    ∧ (∀ env st t now e, env.packageMissing = false → 0 ≤ t →
        loadAllGo env.files = .error (some e) →
        load_manifests env st true (some t) now = (.error e, st)) := by
  constructor
  · intro env st t now hmiss ht
    have httl : ttlNegative (some t) = false := by
      simp only [ttlNegative, decide_eq_false_iff_not]
      omega
    have hhit : cacheHit st true (some t) now = false := by
      simp [cacheHit]
    have hload : loadAllManifests env = .error none := by
      simp [loadAllManifests, hmiss]
    simp [load_manifests, httl, hhit, hload]
  · intro env st t now e hmiss ht hgo
    have httl : ttlNegative (some t) = false := by
      simp only [ttlNegative, decide_eq_false_iff_not]
      omega
    have hhit : cacheHit st true (some t) now = false := by
      simp [cacheHit]
    have hload : loadAllManifests env = .error (some e) := by
      simp [loadAllManifests, hmiss, hgo]
    simp [load_manifests, httl, hhit, hload]

/-- Witness for the amended C3: a missing provider package clears the cache
and raises, while a malformed manifest file leaves the populated cache in
place. -/
theorem claim_C3_witness :
    load_manifests ⟨true, []⟩ ⟨some [dvsManifest], some 300⟩ true (some defaultCacheTtl) 10
      = (.error (.providerError "Provider package was not found."), ⟨none, none⟩)
    ∧ load_manifests envBad ⟨some [dvsManifest], some 300⟩ true (some defaultCacheTtl) 10
        = (.error (.providerError "Provider manifest is not valid JSON."),
            ⟨some [dvsManifest], some 300⟩) :=
  ⟨claim_C3.1 ⟨true, []⟩ ⟨some [dvsManifest], some 300⟩ defaultCacheTtl 10 rfl (by decide),
    claim_C3.2 envBad ⟨some [dvsManifest], some 300⟩ defaultCacheTtl 10
      (.providerError "Provider manifest is not valid JSON.") rfl (by decide) rfl⟩

/-!
Provider base contract (`provider/base.py`).
-/

/-- Model of the `Favorite` dataclass of `models.py`. -/
structure Favorite where
  id : String
  name : String
  license_plate : String
  deriving Repr, DecidableEq

/-- Attribute table of a `loader.ProviderManifest` instance: the dataclass is
declared with `slots=True`, so exactly its four declared fields exist as
attributes. -/
def manifestAttrTable (m : ProviderManifest) : List (String × PyVal) :=
  [("id", .str m.id), ("name", .str m.name),
   ("favorite_update_fields", .strList m.favorite_update_fields),
   ("reservation_update_fields", .strList m.reservation_update_fields)]

/-- Python attribute lookup on a `ProviderManifest`: a name outside the slot
table raises `AttributeError`. -/
def manifestGetattr (m : ProviderManifest) (attr : String) : Except PyErr PyVal :=
  match (manifestAttrTable m).find? (fun kv => kv.fst == attr) with
  | some kv => .ok kv.snd
  | none =>
    .error (.attributeError ("ProviderManifest object has no attribute " ++ attr))

/-- Python truthiness of the attribute values that occur here. -/
def pyTruthy : PyVal → Bool
  | .str s => s ≠ ""
  | .strList xs => xs ≠ []

/-- Provider sub-operations a favorite update performs. -/
inductive FavOp where
  | removeFav (favoriteId : String)
  | addFav (licensePlate : String) (name : Option String)
  deriving Repr, DecidableEq

/-- Model of `BaseProvider.update_favorite` (`base.py` lines 250–267): read
`self.favorite_update_possible` (an attribute lookup on the manifest,
`base.py` lines 56–57); if truthy delegate to the native update; otherwise
require a license plate, normalize it, remove the favorite and re-add it with
the merged values.  The provider-specific sub-operations are environment
parameters; the returned list records the sub-operations performed in
order. -/
def update_favorite (m : ProviderManifest) (favoriteId : String)
    (licensePlate name : Option String)
    (nativeResult : Except PyErr Favorite)
    (removeResult : Except PyErr Unit)
    (addResult : String → Option String → Except PyErr Favorite) :
    Except PyErr Favorite × List FavOp :=
  match manifestGetattr m "favorite_update_possible" with
  | .error e => (.error e, [])
  | .ok v =>
    if pyTruthy v then (nativeResult, [])
    else
      match licensePlate with
      | none =>
        (.error (.validationError "license_plate is required when update is not supported."), [])
      | some lp =>
        match normalize_license_plate lp with
        | .error e => (.error e, [])
        | .ok np =>
          match removeResult with
          | .error e => (.error e, [.removeFav favoriteId])
          | .ok _ =>
            match addResult np name with
            | .error e => (.error e, [.removeFav favoriteId, .addFav np name])
            | .ok fav => (.ok fav, [.removeFav favoriteId, .addFav np name])

/-- C4 evaluated at its failing input: on a manifest built by the loader
(which declares `favorite_update_fields`, not `favorite_update_possible`),
`update_favorite` raises `AttributeError` before performing any
remove/add sub-operation, instead of emulating the update as the claim
describes. -/
theorem claim_C4 :
    update_favorite dvsManifest "fav1" (some "AB12CD") none
        (.ok ⟨"native", "", "AB12CD"⟩) (.ok ())
        (fun np nm => .ok ⟨"new", nm.getD np, np⟩)
      = (.error
          (.attributeError "ProviderManifest object has no attribute favorite_update_possible"),
        []) := by
  decide

/-!
Generic HTTP request execution (`BaseProvider._request`, `base.py` lines
151–180).  The transport is an environment mapping each attempt index to its
outcome; an `aiohttp.ClientError` or `TimeoutError` is a transport error.
-/

/-- Outcome of one HTTP attempt at the transport boundary. -/
inductive HttpOutcome where
  | transportError
  | response (status : Nat) (jsonDoc : Option JsonValue) (text : String)

/-- Data returned by a successful request. -/
inductive RespData where
  | json (v : JsonValue)
  | text (s : String)

/-- Model of `BaseProvider._raise_for_status`: 2xx passes, 401/403 maps to
`AuthError`, anything else to a `ProviderError` carrying the status code. -/
def raiseForStatus (status : Nat) : Except PyErr Unit :=
  if 200 ≤ status ∧ status < 300 then .ok ()
  else if status = 401 ∨ status = 403 then .error (.authError "Authentication failed.")
  else
    .error (.providerError ("Provider request failed with status " ++ toString status ++ "."))

/-- Body handling of `_request`: a JSON-decode failure of an expected-JSON
response maps to `ProviderError`; otherwise the decoded document (or the
text) is returned. -/
def handleBody (expectJson : Bool) (jsonDoc : Option JsonValue) (text : String) :
    Except PyErr RespData :=
  if expectJson then
    match jsonDoc with
    | some v => .ok (.json v)
    | none => .error (.providerError "Response did not contain valid JSON.")
  else .ok (.text text)

/-- Attempt loop of `BaseProvider._request`; the second result component is
the number of attempts issued.  The fuel-exhausted base case is the
post-loop `raise ProviderError` of line 180. -/
def baseRequestGo (env : Nat → HttpOutcome) (expectJson : Bool) :
    Nat → Nat → Except PyErr RespData × Nat
  | attempt, 0 => (.error (.providerError "Request failed."), attempt)
  | attempt, fuel + 1 =>
    match env attempt with
    | .transportError =>
      if fuel = 0 then (.error (.networkError "Network request failed."), attempt + 1)
      else baseRequestGo env expectJson (attempt + 1) fuel
    | .response status jsonDoc text =>
      match raiseForStatus status with
      | .error e => (.error e, attempt + 1)
      | .ok _ => (handleBody expectJson jsonDoc text, attempt + 1)

/-- Model of `BaseProvider._request`: `retries = retry_count if GET else 0`,
`attempts = retries + 1`. -/
def baseRequest (method : String) (retryCount : Nat) (expectJson : Bool)
    (env : Nat → HttpOutcome) : Except PyErr RespData × Nat :=
  baseRequestGo env expectJson 0 (if pyUpper method == "GET" then retryCount + 1 else 1)

/-- On an all-transport-error environment the attempt loop issues every
remaining attempt and then surfaces `NetworkError`. -/
theorem baseRequestGo_transport (env : Nat → HttpOutcome) (ej : Bool)
    (henv : ∀ i, env i = .transportError) :
    ∀ fuel att, baseRequestGo env ej att (fuel + 1)
      = (.error (.networkError "Network request failed."), att + fuel + 1) := by
  intro fuel
  induction fuel with
  | zero => intro att; simp [baseRequestGo, henv att]
  | succ f ih =>
    intro att
    have ih2 := ih (att + 1)
    have harith : att + 1 + f + 1 = att + (f + 1) + 1 := by omega
    rw [harith] at ih2
    simp only [baseRequestGo, henv, Nat.succ_ne_zero, if_false] at ih2 ⊢
    exact ih2

/-- C5: under transport-level failures a GET request is retried up to the
configured count and then surfaces `NetworkError` after `retry_count + 1`
attempts, while a non-GET request issues exactly one attempt and surfaces
`NetworkError` on its first transport failure. -/
theorem claim_C5 :
    (∀ rc ej env, (∀ i, env i = HttpOutcome.transportError) →
      baseRequest "GET" rc ej env
        = (.error (.networkError "Network request failed."), rc + 1))
    ∧ (∀ method rc ej env, pyUpper method ≠ "GET" →
        env 0 = HttpOutcome.transportError →
        baseRequest method rc ej env
          = (.error (.networkError "Network request failed."), 1)) := by
  constructor
  · intro rc ej env henv
    have hm : (pyUpper "GET" == "GET") = true := by decide
    simp only [baseRequest, hm, if_true]
    rw [baseRequestGo_transport env ej henv rc 0]
    norm_num
  · intro method rc ej env hm h0
    have hm2 : (pyUpper method == "GET") = false := by
      simp [hm]
    simp only [baseRequest, hm2, Bool.false_eq_true, if_false]
    simp [baseRequestGo, h0]

/-- Witness for C5: a GET with retry count 2 fails after three attempts and a
POST fails after one, on an environment whose every attempt is a transport
error. -/
theorem claim_C5_witness :
    baseRequest "GET" 2 true (fun _ => HttpOutcome.transportError)
      = (.error (.networkError "Network request failed."), 3)
    ∧ baseRequest "POST" 2 true (fun _ => HttpOutcome.transportError)
      = (.error (.networkError "Network request failed."), 1) :=
  ⟨claim_C5.1 2 true (fun _ => .transportError) (fun _ => rfl),
    claim_C5.2 "POST" 2 true (fun _ => .transportError) (by decide) rfl⟩

/-!
Reauthentication loops.

`dvsportal.api.Provider._request` (lines 728–755) and
`the_hague.api.Provider._request_with_reauth` (lines 478–510) wrap one inner
request function: up to two attempts when reauthentication is allowed, one
otherwise; only `AuthError` is caught, and only on the first attempt, in which
case `_reauthenticate` (one login handshake with the cached credentials) runs
and the request is retried once; every other error, and the error of the
retried attempt, propagates.  The inner request and the reauthentication
outcome are environment parameters; the second result component counts the
reauthentication cycles performed.
-/

/-- Test of the except clause `except AuthError`. -/
def isAuthErr : PyErr → Bool
  | .authError _ => true
  | _ => false

/-- Model of `dvsportal.api.Provider._request`; `inner k` is the result of
the k-th call to `self._request_with_backoff`. -/
def dvsRequestLoop (allowReauth : Bool) (inner : Nat → Except PyErr RespData)
    (reauth : Except PyErr Unit) : Except PyErr RespData × Nat :=
  match inner 0 with
  | .ok v => (.ok v, 0)
  | .error e =>
    if isAuthErr e && allowReauth then
      match reauth with
      | .error e2 => (.error e2, 1)
      | .ok _ => (inner 1, 1)
    else (.error e, 0)

/-- Model of `the_hague.api.Provider._request_with_reauth`; `inner k` is the
result of the k-th call to `self._request`. -/
def hagueRequestLoop (allowReauth : Bool) (inner : Nat → Except PyErr RespData)
    (reauth : Except PyErr Unit) : Except PyErr RespData × Nat :=
  match inner 0 with
  | .ok v => (.ok v, 0)
  | .error e =>
    if isAuthErr e && allowReauth then
      match reauth with
      | .error e2 => (.error e2, 1)
      | .ok _ => (inner 1, 1)
    else (.error e, 0)

/-- C6: in both adapters, an authenticated call whose first attempt fails
with the auth error raised for a 401/403 performs exactly one
reauthentication with the cached credentials and retries once: if the retry
succeeds its result is returned without raising, and if the retry fails with
a second consecutive auth failure that `AuthError` is surfaced to the caller
instead of being retried again. -/
theorem claim_C6 (inner : Nat → Except PyErr RespData) (reauth : Except PyErr Unit)
    (hfirst : inner 0 = .error (.authError "Authentication failed."))
    (hreauth : reauth = .ok ()) :
    (∀ v, inner 1 = .ok v →
      dvsRequestLoop true inner reauth = (.ok v, 1)
      ∧ hagueRequestLoop true inner reauth = (.ok v, 1))
    ∧ (∀ msg, inner 1 = .error (.authError msg) →
      dvsRequestLoop true inner reauth = (.error (.authError msg), 1)
      ∧ hagueRequestLoop true inner reauth = (.error (.authError msg), 1)) := by
  constructor
  · intro v hsecond
    constructor
    · simp [dvsRequestLoop, hfirst, hreauth, isAuthErr, hsecond]
    · simp [hagueRequestLoop, hfirst, hreauth, isAuthErr, hsecond]
  · intro msg hsecond
    constructor
    · simp [dvsRequestLoop, hfirst, hreauth, isAuthErr, hsecond]
    · simp [hagueRequestLoop, hfirst, hreauth, isAuthErr, hsecond]

/-- Inner request of the C6 witness: call 0 hits a 401 (mapped to the auth
error by the shared status mapping) and call 1 succeeds with a JSON body. -/
def innerW (k : Nat) : Except PyErr RespData :=
  (baseRequest "POST" 0 true
    (fun _ => if k = 0 then .response 401 none "" else .response 200 (some .null) "")).1

/-- Witness for C6: on `innerW` with a succeeding reauthentication, both
adapters return the retried JSON result with exactly one reauthentication
cycle. -/
theorem claim_C6_witness :
    dvsRequestLoop true innerW (.ok ()) = (.ok (.json .null), 1)
    ∧ hagueRequestLoop true innerW (.ok ()) = (.ok (.json .null), 1) :=
  (claim_C6 innerW (.ok ()) rfl rfl).1 (.json .null) rfl

/-!
Rate-limit handling of the DVS Portal adapter
(`dvsportal.api.Provider._request_with_backoff`, lines 757–806, and
`Provider._handle_rate_limit`, lines 808–830).
-/

/-- Outcome of one HTTP attempt against the DVS Portal backend, including the
optional `Retry-After` header of a 429 response. -/
inductive DvsOutcome where
  | transportError
  | response (status : Nat) (retryAfter : Option String) (jsonDoc : Option JsonValue)
      (text : String)

/-- Digit-string value, for the model of Python `int(...)` on strings. -/
def digitsVal : List Char → Option Nat
  | [] => none
  | cs =>
    if cs.all Char.isDigit then
      some (cs.foldl (fun acc c => acc * 10 + (c.toNat - 48)) 0)
    else none

/-- Model of Python `int(s)` for a string: optional sign after stripping
whitespace, then decimal digits; `none` is the `ValueError` case. -/
def pyIntParse (s : String) : Option Int :=
  match (pyStrip s).toList with
  | [] => none
  | c :: rest =>
    if c = '-' then (digitsVal rest).map (fun n => -(n : Int))
    else if c = '+' then (digitsVal rest).map (fun n => (n : Int))
    else (digitsVal (c :: rest)).map (fun n => (n : Int))

/-- Model of `Provider._handle_rate_limit`: when the `Retry-After` header is
a truthy string parsing as a positive integer, sleep that many seconds (the
first component); then raise the rate-limit `ProviderError` unless the
request is a GET with attempts left. -/
def handleRateLimit (method : String) (retryAfter : Option String)
    (attempt attempts : Nat) : Option Int × Except PyErr Unit :=
  let delay : Int :=
    match retryAfter with
    | none => 0
    | some ra => if ra = "" then 0 else (pyIntParse ra).getD 0
  let sleepOpt : Option Int := if 0 < delay then some delay else none
  if pyUpper method ≠ "GET" ∨ attempts - 1 ≤ attempt then
    (sleepOpt, .error (.providerError "Provider rate limit exceeded."))
  else (sleepOpt, .ok ())

/-- Attempt loop of `Provider._request_with_backoff`; the second result
component lists the back-off sleeps performed, in seconds.  The
fuel-exhausted base case is the post-loop `raise NetworkError` of line 806. -/
def dvsBackoffGo (env : Nat → DvsOutcome) (method : String) (expectJson : Bool)
    (attempts : Nat) : Nat → Nat → Except PyErr RespData × List Int
  | _, 0 => (.error (.networkError "Network request failed."), [])
  | attempt, fuel + 1 =>
    match env attempt with
    | .transportError =>
      if fuel = 0 then (.error (.networkError "Network request failed."), [])
      else dvsBackoffGo env method expectJson attempts (attempt + 1) fuel
    | .response status retryAfter jsonDoc text =>
      if status = 429 then
        match handleRateLimit method retryAfter attempt attempts with
        | (sleepOpt, .error e) => (.error e, sleepOpt.toList)
        | (sleepOpt, .ok _) =>
          let rest := dvsBackoffGo env method expectJson attempts (attempt + 1) fuel
          (rest.1, sleepOpt.toList ++ rest.2)
      else if status = 401 ∨ status = 403 then
        (.error (.authError "Authentication failed."), [])
      else if ¬(200 ≤ status ∧ status < 300) then
        (.error (.providerError ("Provider request failed with status "
          ++ toString status ++ ".")), [])
      else (handleBody expectJson jsonDoc text, [])

/-- Model of `Provider._request_with_backoff`: `retries = retry_count if GET
else 0`, `attempts = retries + 1`. -/
def dvsRequestWithBackoff (method : String) (retryCount : Nat) (expectJson : Bool)
    (env : Nat → DvsOutcome) : Except PyErr RespData × List Int :=
  dvsBackoffGo env method expectJson
    (if pyUpper method == "GET" then retryCount + 1 else 1) 0
    (if pyUpper method == "GET" then retryCount + 1 else 1)

/-- Counterexample to C7: a GET whose whole retry budget is consumed by 429
responses fails with the plain `ProviderError` (message "Provider rate limit
exceeded.", error code `provider_error`), which is the generic provider
failure kind, not the `RateLimitError` subkind with error code `rate_limit`
that the claim says callers can distinguish. -/
theorem claim_C7_counterexample :
    dvsRequestWithBackoff "GET" 1 true (fun _ => .response 429 (some "0") none "")
      = (.error (.providerError "Provider rate limit exceeded."), [])
    ∧ (PyErr.providerError "Provider rate limit exceeded.").errorCode = "provider_error"
    ∧ (PyErr.providerError "Provider rate limit exceeded.").errorCode ≠ "rate_limit" := by
  refine ⟨by rfl, by rfl, by decide⟩

/-- One continuing step of the back-off loop: a non-final 429 GET attempt
without a `Retry-After` header performs no sleep and moves to the next
attempt. -/
theorem dvsBackoffGo_step (env : Nat → DvsOutcome) (ej : Bool) (attempts att fuel : Nat)
    (h : env att = .response 429 none none "")
    (hc : handleRateLimit "GET" none att attempts = (none, .ok ())) :
    dvsBackoffGo env "GET" ej attempts att (fuel + 1)
      = dvsBackoffGo env "GET" ej attempts (att + 1) fuel := by
  conv_lhs => simp only [dvsBackoffGo]
  rw [h]
  simp [hc]

/-- Helper for the amended C7: a GET whose every attempt is a 429 without a
`Retry-After` header exhausts the loop and raises the rate-limit
`ProviderError` without sleeping. -/
theorem dvsBackoffGo_rateLimited (env : Nat → DvsOutcome) (ej : Bool) (attempts : Nat)
    (henv : ∀ i, env i = .response 429 none none "") :
    ∀ fuel att, att + fuel + 1 = attempts →
      dvsBackoffGo env "GET" ej attempts att (fuel + 1)
        = (.error (.providerError "Provider rate limit exceeded."), []) := by
  intro fuel
  induction fuel with
  | zero =>
    intro att hatt
    have hrl : handleRateLimit "GET" none att attempts
        = (none, .error (.providerError "Provider rate limit exceeded.")) := by
      simp only [handleRateLimit]
      rw [if_pos (Or.inr (by omega))]
      norm_num
    simp [dvsBackoffGo, henv att, hrl]
  | succ f ih =>
    intro att hatt
    have hrl : handleRateLimit "GET" none att attempts = (none, .ok ()) := by
      have hno : ¬(pyUpper "GET" ≠ "GET" ∨ attempts - 1 ≤ att) := by
        push_neg
        exact ⟨by decide, by omega⟩
      simp only [handleRateLimit]
      rw [if_neg hno]
      norm_num
    rw [dvsBackoffGo_step env ej attempts att (f + 1) (henv att) hrl]
    exact ih (att + 1) (by omega)

/-- C7 as amended: exhausting the GET retry budget under sustained 429s fails
with the generic `ProviderError` carrying the message "Provider rate limit
exceeded." (error code `provider_error`; the `RateLimitError` subkind is
never raised), and a rate-limited non-GET request fails immediately with that
same `ProviderError` on its first 429 response, whatever the later attempts
would return. -/
theorem claim_C7 :
    (∀ rc ej env, (∀ i, env i = DvsOutcome.response 429 none none "") →
      dvsRequestWithBackoff "GET" rc ej env
        = (.error (.providerError "Provider rate limit exceeded."), []))
    ∧ (∀ method rc ej env ra jd t, pyUpper method ≠ "GET" →
        env 0 = DvsOutcome.response 429 ra jd t →
        (dvsRequestWithBackoff method rc ej env).1
          = .error (.providerError "Provider rate limit exceeded.")) := by
  constructor
  · intro rc ej env henv
    have hm : (pyUpper "GET" == "GET") = true := by decide
    simp only [dvsRequestWithBackoff, hm, if_true]
    exact dvsBackoffGo_rateLimited env ej (rc + 1) henv rc 0 (by omega)
  · intro method rc ej env ra jd t hm h0
    have hm2 : (pyUpper method == "GET") = false := by simp [hm]
    have hr2 : (handleRateLimit method ra 0 1).2
        = .error (.providerError "Provider rate limit exceeded.") := by
      simp only [handleRateLimit]
      rw [if_pos (Or.inl hm)]
    rcases hpair : handleRateLimit method ra 0 1 with ⟨s, r⟩
    rw [hpair] at hr2
    simp only at hr2
    subst hr2
    simp only [dvsRequestWithBackoff, hm2, Bool.false_eq_true, if_false]
    show (dvsBackoffGo env method ej 1 0 (0 + 1)).1 = _
    simp only [dvsBackoffGo, h0]
    simp [hpair]

/-- Witness for C7 as amended: a GET with retry count 1 under sustained 429s,
and a POST whose first response is a 429. -/
theorem claim_C7_witness :
    dvsRequestWithBackoff "GET" 1 true (fun _ => DvsOutcome.response 429 none none "")
      = (.error (.providerError "Provider rate limit exceeded."), [])
    ∧ (dvsRequestWithBackoff "POST" 1 true
        (fun _ => DvsOutcome.response 429 none none "")).1
      = .error (.providerError "Provider rate limit exceeded.") :=
  ⟨claim_C7.1 1 true (fun _ => .response 429 none none "") (fun _ => rfl),
    claim_C7.2 "POST" 1 true (fun _ => .response 429 none none "") none none ""
      (by decide) rfl⟩

/-!
Favorite creation with duplicate detection
(`the_hague.api.Provider.add_favorite`, lines 239–257, with its mapping
helpers, and `dvsportal.api.Provider.add_favorite`, lines 349–398, with
`_fetch_base`/`_extract_permit`/`_select_permit_media`/`_cache_defaults`/
`_map_favorites`).  The backend documents returned by the HTTP layer are
environment parameters; the request log lists (method, endpoint) pairs of the
requests issued, in order.
-/

/-- Python `str(...)` of a scalar JSON value. -/
def jsonScalarStr : JsonValue → String
  | .str s => s
  | .num n => toString n
  | .bool b => if b then "True" else "False"
  | .null => "None"
  | .arr _ => "<arr>"
  | .obj _ => "<obj>"

/-- Python truthiness of a JSON value. -/
def jsonTruthy : JsonValue → Bool
  | .null => false
  | .bool b => b
  | .num n => n != 0
  | .str s => s != ""
  | .arr xs => !xs.isEmpty
  | .obj kvs => !kvs.isEmpty

/-- Model of `the_hague.api.Provider._coerce_response_id`: a missing value
(Python `None`), or one that is empty after `str(...)` and strip, is a
`ProviderError`. -/
def hagueCoerceResponseId (v : Option JsonValue) (field : String) : Except PyErr String :=
  match v with
  | none => .error (.providerError ("Provider response missing " ++ field ++ "."))
  | some .null => .error (.providerError ("Provider response missing " ++ field ++ "."))
  | some jv =>
    let text := pyStrip (jsonScalarStr jv)
    if text = "" then .error (.providerError ("Provider response missing " ++ field ++ "."))
    else .ok text

/-- Model of `the_hague.api.Provider._map_favorite`. -/
def hagueMapFavorite (data : JsonValue) : Except PyErr Favorite :=
  match data with
  | .obj kvs =>
    match hagueCoerceResponseId (jsonLookup kvs "id") "favorite id" with
    | .error e => .error e
    | .ok fid =>
      match jsonLookup kvs "license_plate" with
      | none => .error (.providerError "Provider response missing favorite fields.")
      | some .null => .error (.providerError "Provider response missing favorite fields.")
      | some (.str plate) =>
        let nameStr :=
          match jsonLookup kvs "name" with
          | some v => if jsonTruthy v then jsonScalarStr v else ""
          | none => ""
        match normalize_license_plate plate with
        | .error _ => .error (.providerError "Provider returned invalid favorite data.")
        | .ok np => .ok ⟨fid, nameStr, np⟩
      | some _ => .error (.providerError "Provider response included invalid favorite data.")
  | _ => .error (.providerError "Provider response included invalid favorite data.")

/-- Item loop of `the_hague.api.Provider._map_favorite_list`: non-dict items
are skipped. -/
def hagueMapFavListGo : List JsonValue → Except PyErr (List Favorite)
  | [] => .ok []
  | item :: rest =>
    match item with
    | .obj kvs =>
      match hagueMapFavorite (.obj kvs) with
      | .error e => .error e
      | .ok f =>
        match hagueMapFavListGo rest with
        | .error e => .error e
        | .ok fs => .ok (f :: fs)
    | _ => hagueMapFavListGo rest

/-- Model of `the_hague.api.Provider._map_favorite_list`. -/
def hagueMapFavoriteList (data : JsonValue) : Except PyErr (List Favorite) :=
  match data with
  | .null => .ok []
  | .arr items => hagueMapFavListGo items
  | _ => .error (.providerError "Provider response included invalid favorites.")

/-- Model of `the_hague.api.Provider.add_favorite`: normalize the plate, list
the stored favorites (one GET), refuse a duplicate canonical plate with
`ValidationError` before any create request, otherwise POST the new favorite
and map the response.  `favoritesDoc` and `createDoc` are the backend
responses of the two requests. -/
def hagueAddFavorite (favoritesDoc createDoc : JsonValue)
    (licensePlate : String) (_name : Option String) :
    Except PyErr Favorite × List (String × String) :=
  match normalize_license_plate licensePlate with
  | .error e => (.error e, [])
  | .ok np =>
    match hagueMapFavoriteList favoritesDoc with
    | .error e => (.error e, [("GET", "/favorite")])
    | .ok favs =>
      if favs.any (fun f => f.license_plate == np) then
        (.error (.validationError "license_plate is already a favorite."),
          [("GET", "/favorite")])
      else
        match hagueMapFavorite createDoc with
        | .error e => (.error e, [("GET", "/favorite"), ("POST", "/favorite")])
        | .ok fav => (.ok fav, [("GET", "/favorite"), ("POST", "/favorite")])

/-- Cached permit-media defaults of a DVS Portal provider instance
(`_permit_media_type_id` and `_permit_media_code`). -/
structure DvsDefaults where
  typeId : Option JsonValue
  code : Option String

/-- Model of `dvsportal.api.Provider._extract_permit`: take `Permit` when
truthy, else the first element of a non-empty `Permits` list; a non-dict
result is a `ProviderError`. -/
def dvsExtractPermit (data : JsonValue) : Except PyErr (List (String × JsonValue)) :=
  match data with
  | .obj kvs =>
    let primary := jsonLookup kvs "Permit"
    let chosen : Option JsonValue :=
      match primary with
      | some v =>
        if jsonTruthy v then some v
        else
          match jsonLookup kvs "Permits" with
          | some (.arr (p :: _)) => some p
          | _ => primary
      | none =>
        match jsonLookup kvs "Permits" with
        | some (.arr (p :: _)) => some p
        | _ => none
    match chosen with
    | some (.obj pkvs) => .ok pkvs
    | _ => .error (.providerError "Provider response did not include permit data.")
  | _ => .error (.attributeError "object has no attribute get")

/-- Model of `dvsportal.api.Provider._select_permit_media`. -/
def dvsSelectPermitMedia (permit : List (String × JsonValue)) :
    Except PyErr (List (String × JsonValue)) :=
  match jsonLookup permit "PermitMedias" with
  | some (.arr (m :: _)) =>
    match m with
    | .obj mkvs => .ok mkvs
    | _ => .error (.providerError "Provider response included invalid permit media.")
  | _ => .error (.providerError "Provider response did not include permit media.")

/-- Model of `dvsportal.api.Provider._validate_media_type_id`: booleans and
non-string/int values are rejected, as are blank strings. -/
def dvsValidateMediaTypeId (v : JsonValue) : Except PyErr Unit :=
  match v with
  | .bool _ => .error (.validationError "permit_media_type_id must be a string or integer.")
  | .num _ => .ok ()
  | .str s =>
    if pyStrip s = "" then .error (.validationError "permit_media_type_id must be non-empty.")
    else .ok ()
  | _ => .error (.validationError "permit_media_type_id must be a string or integer.")

/-- Model of `dvsportal.api.Provider._cache_defaults`. -/
def dvsCacheDefaults (permit : List (String × JsonValue)) (st : DvsDefaults) :
    Except PyErr DvsDefaults :=
  match dvsSelectPermitMedia permit with
  | .error e => .error e
  | .ok media =>
    let typeIdRaw := jsonLookup media "TypeID"
    let codeRaw := jsonLookup media "Code"
    let step1 : Except PyErr DvsDefaults :=
      match typeIdRaw with
      | none => .ok st
      | some .null => .ok st
      | some tv =>
        match dvsValidateMediaTypeId tv with
        | .error e => .error e
        | .ok _ => .ok { st with typeId := some tv }
    match step1 with
    | .error e => .error e
    | .ok st1 =>
      match codeRaw with
      | some (.str s) =>
        if pyStrip s ≠ "" then .ok { st1 with code := some (pyStrip s) } else .ok st1
      | _ => .ok st1

/-- Model of `dvsportal.api.Provider._fetch_base` on an authenticated
instance: issue the getbase request, extract the permit and refresh the
cached defaults. -/
def dvsFetchBase (baseDoc : JsonValue) (st : DvsDefaults) :
    Except PyErr (List (String × JsonValue) × DvsDefaults) :=
  match dvsExtractPermit baseDoc with
  | .error e => .error e
  | .ok permit =>
    match dvsCacheDefaults permit st with
    | .error e => .error e
    | .ok st2 => .ok (permit, st2)

/-- Item loop of `dvsportal.api.Provider._map_favorites`: non-dict items and
falsy `Value` entries are skipped; a non-string or non-normalizable value is
a `ProviderError`. -/
def dvsMapFavoritesGo : List JsonValue → Except PyErr (List Favorite)
  | [] => .ok []
  | item :: rest =>
    match item with
    | .obj kvs =>
      match jsonLookup kvs "Value" with
      | some v =>
        if jsonTruthy v then
          match v with
          | .str s =>
            match normalize_license_plate s with
            | .error _ => .error (.providerError "Provider returned invalid favorite data.")
            | .ok np =>
              let nameStr :=
                match jsonLookup kvs "Name" with
                | some nv => if jsonTruthy nv then jsonScalarStr nv else ""
                | none => ""
              match dvsMapFavoritesGo rest with
              | .error e => .error e
              | .ok fs => .ok (⟨np, nameStr, np⟩ :: fs)
          | _ => .error (.providerError "Provider returned invalid favorite data.")
        else dvsMapFavoritesGo rest
      | none => dvsMapFavoritesGo rest
    | _ => dvsMapFavoritesGo rest

/-- Model of `dvsportal.api.Provider._map_favorites`. -/
def dvsMapFavorites (permitMedia : List (String × JsonValue)) :
    Except PyErr (List Favorite) :=
  match jsonLookup permitMedia "LicensePlates" with
  | none => .ok []
  | some .null => .ok []
  | some (.arr items) => dvsMapFavoritesGo items
  | some _ => .error (.providerError "Provider response included invalid favorites.")

/-- Model of `dvsportal.api.Provider.list_favorites` on an authenticated
instance (fetch the base aggregate, select its permit media, map the stored
plates). -/
def dvsListFavoritesFrom (baseDoc : JsonValue) (st : DvsDefaults) :
    Except PyErr (List Favorite × DvsDefaults) :=
  match dvsFetchBase baseDoc st with
  | .error e => .error e
  | .ok (permit, st2) =>
    match dvsSelectPermitMedia permit with
    | .error e => .error e
    | .ok media =>
      match dvsMapFavorites media with
      | .error e => .error e
      | .ok favs => .ok (favs, st2)

/-- Model of `dvsportal.api.Provider._select_favorite`. -/
def dvsSelectFavorite (favs : List Favorite) (plate : String) : Option Favorite :=
  match favs.find? (fun f => f.license_plate == plate) with
  | some f => some f
  | none => favs.head?

/-- Model of `dvsportal.api.Provider.add_favorite` on an authenticated
instance: normalize the plate, list the stored favorites (one getbase POST),
refuse a duplicate canonical plate with `ValidationError` before the defaults
check and before any upsert request; otherwise require cached defaults, POST
the upsert, and derive the created favorite from the upsert response (or from
a refetched favorites list when the response lacks permit data;
`baseDoc2` is the getbase response of that refetch). -/
def dvsAddFavorite (baseDoc baseDoc2 upsertDoc : JsonValue) (st : DvsDefaults)
    (licensePlate : String) (_name : Option String) :
    Except PyErr Favorite × List (String × String) :=
  match normalize_license_plate licensePlate with
  | .error e => (.error e, [])
  | .ok np =>
    match dvsListFavoritesFrom baseDoc st with
    | .error e => (.error e, [("POST", "/login/getbase")])
    | .ok (favs, st2) =>
      if favs.any (fun f => f.license_plate == np) then
        (.error (.validationError "license_plate is already a favorite."),
          [("POST", "/login/getbase")])
      else
        match st2.typeId, st2.code with
        | some _, some _ =>
          let log1 := [("POST", "/login/getbase"), ("POST", "/permitmedialicenseplate/upsert")]
          let listed : Except PyErr (List Favorite) × List (String × String) :=
            match dvsExtractPermit upsertDoc with
            | .error _ =>
              (match dvsListFavoritesFrom baseDoc2 st2 with
               | .error e => .error e
               | .ok (favs2, _) => .ok favs2,
               log1 ++ [("POST", "/login/getbase")])
            | .ok permit2 =>
              (match dvsCacheDefaults permit2 st2 with
               | .error e => .error e
               | .ok _ =>
                 match dvsSelectPermitMedia permit2 with
                 | .error e => .error e
                 | .ok media2 => dvsMapFavorites media2,
               log1)
          match listed.1 with
          | .error e => (.error e, listed.2)
          | .ok favs2 =>
            match dvsSelectFavorite favs2 np with
            | some fav => (.ok fav, listed.2)
            | none =>
              (.error (.providerError "Favorite was not returned by the provider."), listed.2)
        | _, _ => (.error (.providerError "Permit media defaults are missing."),
            [("POST", "/login/getbase")])

/-- C10: in both the The Hague and the DVS Portal adapter, `add_favorite`
with a plate whose canonical form equals the canonical plate of an
already-stored favorite raises `ValidationError` and issues no create
request: the request log holds only the one listing request. -/
theorem claim_C10 :
    (∀ favoritesDoc createDoc plate nm favs np,
      hagueMapFavoriteList favoritesDoc = .ok favs →
      normalize_license_plate plate = .ok np →
      np ∈ favs.map Favorite.license_plate →
      hagueAddFavorite favoritesDoc createDoc plate nm
        = (.error (.validationError "license_plate is already a favorite."),
            [("GET", "/favorite")]))
    ∧ (∀ baseDoc baseDoc2 upsertDoc st plate nm favs st2 np,
      dvsListFavoritesFrom baseDoc st = .ok (favs, st2) →
      normalize_license_plate plate = .ok np →
      np ∈ favs.map Favorite.license_plate →
      dvsAddFavorite baseDoc baseDoc2 upsertDoc st plate nm
        = (.error (.validationError "license_plate is already a favorite."),
            [("POST", "/login/getbase")])) := by
  constructor
  · intro favoritesDoc createDoc plate nm favs np hmap hnorm hmem
    have hdup : (favs.any (fun f => f.license_plate == np)) = true := by
      rcases List.mem_map.mp hmem with ⟨f, hf, hplate⟩
      exact List.any_eq_true.mpr ⟨f, hf, by simp [hplate]⟩
    simp only [hagueAddFavorite, hnorm, hmap, hdup, if_true]
  · intro baseDoc baseDoc2 upsertDoc st plate nm favs st2 np hlist hnorm hmem
    have hdup : (favs.any (fun f => f.license_plate == np)) = true := by
      rcases List.mem_map.mp hmem with ⟨f, hf, hplate⟩
      exact List.any_eq_true.mpr ⟨f, hf, by simp [hplate]⟩
    simp only [dvsAddFavorite, hnorm, hlist, hdup, if_true]

/-- Stored-favorites response of the The Hague witness. -/
def hagueFavsDocW : JsonValue :=
  .arr [.obj [("id", .num 1), ("license_plate", .str "AB-12-CD"), ("name", .str "Home")]]

/-- Getbase response of the DVS Portal witness. -/
def dvsBaseDocW : JsonValue :=
  .obj [("Permit", .obj [("PermitMedias", .arr [.obj
    [("TypeID", .num 7), ("Code", .str "CODE"),
     ("LicensePlates", .arr [.obj [("Value", .str "AB12CD"), ("Name", .str "Car")]])]])])]

/-- Witness for C10: adding the plate "ab-12 cd" (canonical form AB12CD) while
a favorite with canonical plate AB12CD is stored fails with
`ValidationError` in both adapters, with only the listing request issued. -/
theorem claim_C10_witness :
    hagueAddFavorite hagueFavsDocW .null "ab-12 cd" none
      = (.error (.validationError "license_plate is already a favorite."),
          [("GET", "/favorite")])
    ∧ dvsAddFavorite dvsBaseDocW .null .null ⟨none, none⟩ "ab-12 cd" none
      = (.error (.validationError "license_plate is already a favorite."),
          [("POST", "/login/getbase")]) :=
  ⟨claim_C10.1 hagueFavsDocW .null "ab-12 cd" none [⟨"1", "Home", "AB12CD"⟩] "AB12CD"
      rfl rfl (by decide),
    claim_C10.2 dvsBaseDocW .null .null ⟨none, none⟩ "ab-12 cd" none
      [⟨"AB12CD", "Car", "AB12CD"⟩] ⟨some (.num 7), some "CODE"⟩ "AB12CD"
      rfl rfl (by decide)⟩

end PyCVP
